import Mathlib

/-!
Formal model of the document translation pipeline in
`src/document_processor.py` of the doctranslatetool repository, together
with theorems settling the specified behavioural properties: run-level
redistribution of translated text, per-unit fallback on translator
failure, layout compensation thresholds, percentage clamping and
truncation, PDF text-block classification, page-geometry selection in the
direct PDF rebuilder, idempotence of the secondary classification pass,
and the empty-model fallback of PDF extraction.

Texts are modelled as lists of characters (Python strings indexed and
sliced by character position).  Rational numbers stand in for Python
floats where the computation is exact or where double rounding provably
agrees on all realistic inputs; where double rounding is itself the
question (the paragraph-count truncation `int(total * (percent / 100))`
and the per-run cut length), IEEE-754 binary64 arithmetic is modelled
exactly by dyadic rationals over ℕ/ℤ (`flRat`, `flMulNat`).
-/

set_option maxRecDepth 8000

abbrev Str := List Char

/-- Python `needle in hay` substring test on character lists. -/
def hasSub (needle : Str) : Str → Bool
  | [] => needle.isEmpty
  | c :: rest => needle.isPrefixOf (c :: rest) || hasSub needle rest

/-- Python `str.upper()` (ASCII marker keywords only are compared). -/
def upperStr (s : Str) : Str := s.map Char.toUpper

/-- Python `str.strip()`: drop whitespace from both ends. -/
def trimStr (s : Str) : Str :=
  ((s.dropWhile Char.isWhitespace).reverse.dropWhile Char.isWhitespace).reverse

/-! ### Exact binary64 arithmetic for the two float computations whose
rounding matters: `int(total * (percent / 100))` and
`int(len(translated) * (len(run) / len(original)))`.  A positive double is
represented as a dyadic pair `m * 2 ^ e`. -/

/-- Fuel-based floor of log2 (`natLog2F fuel n` with fuel ≥ bit size). -/
def natLog2F : Nat → Nat → Nat
  | 0, _ => 0
  | fuel + 1, n => if 2 ≤ n then natLog2F fuel (n / 2) + 1 else 0

/-- Round `a / b` (with `b > 0`) to the nearest integer, ties to even. -/
def rdivNE (a b : Nat) : Nat :=
  let q := a / b
  let r := a % b
  if 2 * r < b then q
  else if b < 2 * r then q + 1
  else if q % 2 = 0 then q else q + 1

/-- A dyadic rational `m * 2 ^ e`, the value of a nonnegative binary64. -/
structure Dyadic where
  m : Nat
  e : ℤ
deriving DecidableEq

/-- The binary64 value of the exact ratio `a / b` (round to nearest, ties
to even; subnormal underflow and overflow do not occur at the magnitudes
the pipeline produces). -/
def flRat (a b : Nat) : Dyadic :=
  if a = 0 || b = 0 then ⟨0, 0⟩
  else
    let la := natLog2F 1100 a
    let lb := natLog2F 1100 b
    let e : ℤ := if b * 2 ^ la ≤ a * 2 ^ lb then (la : ℤ) - lb else (la : ℤ) - lb - 1
    let s : ℤ := 52 - e
    let m := if 0 ≤ s then rdivNE (a * 2 ^ s.toNat) b else rdivNE a (b * 2 ^ (-s).toNat)
    ⟨m, e - 52⟩

/-- The binary64 product of an exact natural number and a double
(round to nearest, ties to even). -/
def flMulNat (n : Nat) (d : Dyadic) : Dyadic :=
  let p := n * d.m
  if p = 0 then ⟨0, 0⟩
  else
    let lp := natLog2F 1100 p
    if lp ≤ 52 then ⟨p, d.e⟩
    else ⟨rdivNE p (2 ^ (lp - 52)), d.e + (lp - 52)⟩

/-- Truncation of a nonnegative dyadic to an integer (Python `int(x)`). -/
def dyadicFloor (d : Dyadic) : Nat :=
  if 0 ≤ d.e then d.m * 2 ^ d.e.toNat else d.m / 2 ^ (-d.e).toNat

/-- Python `int(outer * (num / den))` in binary64 arithmetic. -/
def pyMulRatioTrunc (outer num den : Nat) : Nat :=
  dyadicFloor (flMulNat outer (flRat num den))

/-! ### Data model -/

/-- One formatting run inside a paragraph (`para_data['runs']` entries:
the fields the translation mapper reads and writes). -/
structure RunFrag where
  text : Str
  translated : Option Str := none
deriving DecidableEq

/-- One translatable paragraph unit (`para_data`). -/
structure ParaUnit where
  text : Str
  runs : List RunFrag := []
  translated : Option Str := none
deriving DecidableEq

/-- One table cell as consumed by `translate_document_content`
(`table['cells']` entries). -/
structure CellData where
  text : Str
  translated : Option Str := none
deriving DecidableEq

/-- One table (`table_data` with its `cells` list). -/
structure TableData where
  cells : List CellData := []
deriving DecidableEq

/-- The document data dictionary driven through translation. -/
structure DocData where
  paragraphs : List ParaUnit := []
  tables : List TableData := []
deriving DecidableEq

/-- The `format_markers` record of a PDF text block. -/
structure FormatMarkers where
  is_title : Bool := false
  is_text_box : Bool := false
  is_centered : Bool := false
  has_border : Bool := false
  border_color : Option String := none
deriving DecidableEq

/-- A PDF text block (`text_meta`): text, page number, bounding box and
format markers. -/
structure TextBlock where
  text : Str
  page : Nat := 0
  x0 : ℚ := 0
  y0 : ℚ := 0
  x1 : ℚ := 0
  y1 : ℚ := 0
  format_markers : FormatMarkers := {}
deriving DecidableEq

/-- Page margins in points (`global_margins`). -/
structure Margins where
  left : ℚ
  top : ℚ
  right : ℚ
  bottom : ℚ
deriving DecidableEq

/-- Per-page extraction record (`page_data`): page number, size and the
page's text blocks (tables and images are not needed by the claims). -/
structure PageRec where
  page_number : Nat
  size : Option (ℚ × ℚ) := none
  text_blocks : List TextBlock := []
deriving DecidableEq

/-- The PDF metadata dictionary returned by `extract_pdf_metadata`. -/
structure PdfMeta where
  pages : List PageRec := []
  global_margins : Option Margins := none
  text_blocks : List TextBlock := []
deriving DecidableEq

/-- The translator callback: it may return translated text or raise. -/
abbrev Translator := Str → Except String Str

/-! ### Translation mapper (`translate_document_content`) -/

/-- Per-run provisional cut length:
`int(len(translated_text) * (len(run) / len(original)))` with the ratio
`0` guard for an empty original (both float operations modelled in exact
binary64 arithmetic). -/
def runCutLen (olen tlen rlen : Nat) : Nat :=
  if 0 < olen then pyMulRatioTrunc tlen rlen olen else 0

/-- The run-redistribution loop.  `pos` is `current_position`.  Each run
receives the slice `translated_text[pos:end_position]` with
`end_position = min(pos + cut, len(translated))`; the source then checks
`run == para['runs'][-1]` (dictionary value equality) on the freshly
updated run — when the processed run is not the final one the list's last
element is the still-untouched final run, which is what `lastNow`
captures — and appends the remaining characters when positions were left
unconsumed. -/
def redistAux (olen tlen : Nat) (tr : Str) : List RunFrag → Nat → List RunFrag
  | [], _ => []
  | run :: rest, pos =>
    let cut := runCutLen olen tlen run.text.length
    let endPos := min (pos + cut) tlen
    let run' : RunFrag := { run with translated := some ((tr.take endPos).drop pos) }
    let lastNow : RunFrag :=
      match rest.getLast? with
      | none => run'
      | some lr => lr
    let run'' : RunFrag :=
      if run' = lastNow ∧ endPos < tlen then
        { run' with translated := some (((tr.take endPos).drop pos) ++ tr.drop endPos) }
      else run'
    run'' :: redistAux olen tlen tr rest endPos

/-- Translation of one paragraph: call the translator, store the unit
text, and redistribute across runs only when the unit has more than one
run; on failure fall back to the original text. -/
def translatePara (f : Translator) (p : ParaUnit) : ParaUnit :=
  match f p.text with
  | Except.error _ => { p with translated := some p.text }
  | Except.ok t =>
    if 1 < p.runs.length then
      { p with translated := some t, runs := redistAux p.text.length t.length t p.runs 0 }
    else
      { p with translated := some t }

/-- The per-table cell loop.  Blank cells are skipped; a translator
failure raises out of the whole loop (the `except` at table level only
logs), so the failing cell and every later cell of the table are left
untouched. -/
def translateCellsSeq (f : Translator) : List CellData → List CellData
  | [] => []
  | c :: rest =>
    if (trimStr c.text).isEmpty then c :: translateCellsSeq f rest
    else
      match f c.text with
      | Except.error _ => c :: rest
      | Except.ok t => { c with translated := some t } :: translateCellsSeq f rest

/-- What one already-successful cell looks like after the loop. -/
def translateCellStep (f : Translator) (c : CellData) : CellData :=
  if (trimStr c.text).isEmpty then c
  else
    match f c.text with
    | Except.ok t => { c with translated := some t }
    | Except.error _ => c

/-- `translate_document_content`: translate every paragraph and every
table's cells (the language-code bookkeeping fields are not modelled). -/
def translate_document_content (f : Translator) (doc : DocData) : DocData :=
  { doc with
      paragraphs := doc.paragraphs.map (translatePara f),
      tables := doc.tables.map (fun tb => { tb with cells := translateCellsSeq f tb.cells }) }

/-- Concatenation, in run order, of the redistributed translated sub-run
texts (a run that was never assigned contributes nothing). -/
def joinTranslated (rs : List RunFrag) : Str :=
  (rs.map (fun r => r.translated.getD [])).flatten

/-! ### Layout compensation -/

/-- The `{scale, tracking}` recommendation of `layout_compensation`. -/
structure Compensation where
  scale : ℚ
  tracking : ℚ
deriving DecidableEq

/-- `layout_compensation`: guard empty inputs, then compare the length
ratio against 1.2 and 1.1 (double rounding of the ratio agrees with the
exact rational comparison for every length pair the pipeline can see, so
the ratio is modelled exactly). -/
def layout_compensation (original_text translated_text : Str) : Compensation :=
  if original_text.isEmpty || translated_text.isEmpty then ⟨1, 0⟩
  else
    let len_ratio : ℚ := (translated_text.length : ℚ) / (original_text.length : ℚ)
    if len_ratio > 12 / 10 then ⟨95 / 100, -(5 / 10)⟩
    else if len_ratio > 11 / 10 then ⟨98 / 100, -(3 / 10)⟩
    else ⟨1, 0⟩

/-! ### PDF structural analysis (`extract_pdf_metadata`) -/

/-- The text-box test of the character-clustering path: case-sensitive
domain markers, case-insensitive safety markers. -/
def primaryCalloutMarker (t : Str) : Bool :=
  hasSub ("Biograph".toList) t || hasSub ("Mission".toList) t ||
  hasSub ("WARNING".toList) (upperStr t) || hasSub ("NOTICE".toList) (upperStr t)

/-- Per-line classification of the character-clustering path: centered
iff the line midpoint is within 100 units of the page midpoint; title iff
among the first three lines, under 100 characters, and centered; text-box
iff a callout marker matches, and then `has_border` is set with it.  No
border colour is assigned here. -/
def clusterClassify (lineText : Str) (x0 x1 pageWidth : ℚ) (lineIdx : Nat) : FormatMarkers :=
  let is_centered : Bool := decide (|(x0 + x1) / 2 - pageWidth / 2| < 100)
  let is_title : Bool := decide (lineIdx < 3) && decide (lineText.length < 100) && is_centered
  let is_text_box : Bool := primaryCalloutMarker lineText
  { is_title := is_title, is_text_box := is_text_box, is_centered := is_centered,
    has_border := is_text_box, border_color := none }

/-- The callout test of the secondary pass over all accumulated blocks. -/
def secondaryCalloutMarker (t : Str) : Bool :=
  hasSub ("Mission Phase".toList) t || hasSub ("Biograph".toList) t ||
  hasSub ("PROCEDURE".toList) (upperStr t) || hasSub ("PROTOCOL".toList) (upperStr t)

/-- The short-title test of the secondary pass. -/
def secondaryTitleMarker (t : Str) : Bool :=
  decide ((trimStr t).length < 80) &&
    (["Title:", "Chapter", "Section", "Mission"].any (fun k => hasSub k.toList t))

/-- One block of the secondary classification pass: a callout match sets
`is_text_box`, `has_border` and a red border colour; a short-title match
sets `is_title`. -/
def secondaryStep (b : TextBlock) : TextBlock :=
  let fm1 :=
    if secondaryCalloutMarker b.text then
      { b.format_markers with is_text_box := true, has_border := true,
                              border_color := some ("red") }
    else b.format_markers
  let fm2 := if secondaryTitleMarker b.text then { fm1 with is_title := true } else fm1
  { b with format_markers := fm2 }

/-- The secondary classification pass over a block list. -/
def secondaryClassificationPass (bs : List TextBlock) : List TextBlock :=
  bs.map secondaryStep

/-- One clustered line of raw extraction input: its text and bounding
box, after the vertical-proximity grouping of the character stream. -/
structure RawLine where
  text : Str
  x0 : ℚ := 0
  y0 : ℚ := 0
  x1 : ℚ := 0
  y1 : ℚ := 0
deriving DecidableEq

/-- One raw input page: size, optional bounding box, clustered lines. -/
structure RawPage where
  width : ℚ
  height : ℚ
  bbox : Option (ℚ × ℚ × ℚ × ℚ) := none
  lines : List RawLine := []
deriving DecidableEq

/-- Text blocks of one page: classify each non-blank clustered line
(the line index feeds the first-three-lines title rule). -/
def extractPageBlocks (pageNum : Nat) (pg : RawPage) : List TextBlock :=
  pg.lines.enum.filterMap (fun li =>
    if (trimStr li.2.text).isEmpty then none
    else
      some { text := li.2.text, page := pageNum + 1,
             x0 := li.2.x0, y0 := li.2.y0, x1 := li.2.x1, y1 := li.2.y1,
             format_markers := clusterClassify li.2.text li.2.x0 li.2.x1 pg.width li.1 })

/-- The empty-but-valid metadata returned when extraction fully fails. -/
def emptyPdfMeta : PdfMeta :=
  { pages := [], global_margins := some ⟨0, 0, 0, 0⟩, text_blocks := [] }

/-- `extract_pdf_metadata`: an extraction failure (modelled as the
`Except.error` input) is swallowed and the empty model returned; a PDF
with no pages raises on `pdf.pages[0]` inside the same `try`, with the
same outcome.  Otherwise global margins come from the first page's
bounding box (zeros when absent), every page's non-blank lines become
classified text blocks, and the secondary pass runs over all accumulated
blocks — the block records are shared between the page lists and the
top-level list in the source, so the pass is applied to both views. -/
def extract_pdf_metadata (input : Except String (List RawPage)) : PdfMeta :=
  match input with
  | Except.error _ => emptyPdfMeta
  | Except.ok rawPages =>
    match rawPages with
    | [] => emptyPdfMeta
    | fp :: _ =>
      let gm : Margins :=
        match fp.bbox with
        | some (b0, b1, b2, b3) => ⟨b0, b1, fp.width - b2, fp.height - b3⟩
        | none => ⟨0, 0, 0, 0⟩
      let pages := rawPages.enum.map (fun pr =>
        { page_number := pr.1 + 1, size := some (pr.2.width, pr.2.height),
          text_blocks := extractPageBlocks pr.1 pr.2 })
      let allBlocks := (pages.map PageRec.text_blocks).flatten
      { pages := pages.map (fun pg =>
          { pg with text_blocks := secondaryClassificationPass pg.text_blocks }),
        global_margins := some gm,
        text_blocks := secondaryClassificationPass allBlocks }

/-! ### Direct PDF rebuilder page geometry (`generate_pdf_direct`) -/

/-- The page size and margins `generate_pdf_direct` passes to its
document template.  Default size is Letter (612 × 792 pt); a recorded
first-page size replaces it when both components are truthy (non-zero);
when the width exceeds the height the source swaps the two components
(setting a dead `is_landscape` flag); margins default to 36 pt per side
when no global margins are recorded.  An empty page list makes
`pdf_meta.get('pages', [{}])[0]` raise, which the enclosing handler turns
into a failure result (`none` here). -/
def generate_pdf_geometry (meta : PdfMeta) : Option ((ℚ × ℚ) × Margins) :=
  match meta.pages with
  | [] => none
  | fp :: _ =>
    let wh : ℚ × ℚ :=
      match fp.size with
      | some (w, h) => if w ≠ 0 ∧ h ≠ 0 then (w, h) else (612, 792)
      | none => (612, 792)
    let wh2 : ℚ × ℚ := if wh.1 > wh.2 then (wh.2, wh.1) else wh
    let m : Margins :=
      match meta.global_margins with
      | some gm => gm
      | none => ⟨36, 36, 36, 36⟩
    some (wh2, m)

/-! ### Percentage clamp and truncation (`translate_document`,
`translate_docx`, `translate_pdf` and the two direct-PDF workflows) -/

/-- The job-level clamp `max(1, min(100, percent_to_translate))`. -/
def clampPercent (p : ℤ) : ℤ := max 1 (min 100 p)

/-- Paragraph count kept by the partial-percentage truncation:
`int(total_paragraphs * (percent_to_translate / 100))` in binary64
arithmetic (the modelled workflows only pass clamped, hence nonnegative,
percentages). -/
def pyTruncCount (total : Nat) (percent : ℤ) : Nat :=
  pyMulRatioTrunc total percent.toNat 100

/-- The truncation applied by every workflow before translation begins:
keep the computed number of paragraphs from the front of the list when
the percentage is below 100. -/
def applyPercentLimit (percent : ℤ) (doc : DocData) : DocData :=
  if percent < 100 then
    { doc with paragraphs := doc.paragraphs.take (pyTruncCount doc.paragraphs.length percent) }
  else doc

/-- The translation core of `translate_docx`: truncate, then translate. -/
def translate_docx_pure (f : Translator) (percent : ℤ) (doc : DocData) : DocData :=
  translate_document_content f (applyPercentLimit percent doc)

/-- The translation core of `translate_pdf` (identical truncation and
translation steps; the rebuild target differs). -/
def translate_pdf_pure (f : Translator) (percent : ℤ) (doc : DocData) : DocData :=
  translate_document_content f (applyPercentLimit percent doc)

/-- The translation core of `translate_docx_to_pdf_direct`. -/
def translate_docx_to_pdf_direct_pure (f : Translator) (percent : ℤ) (doc : DocData) : DocData :=
  translate_document_content f (applyPercentLimit percent doc)

/-- The translation core of `translate_pdf_to_pdf_direct`. -/
def translate_pdf_to_pdf_direct_pure (f : Translator) (percent : ℤ) (doc : DocData) : DocData :=
  translate_document_content f (applyPercentLimit percent doc)

/-- `translate_document`: clamp the percentage, then dispatch on the
input extension and the direct-PDF flag; unsupported extensions fail. -/
def translate_document_pure (ext : String) (direct_pdf out_pdf : Bool)
    (f : Translator) (percent : ℤ) (doc : DocData) : Option DocData :=
  let p := clampPercent percent
  if ext = (".docx") then
    if direct_pdf && out_pdf then some (translate_docx_to_pdf_direct_pure f p doc)
    else some (translate_docx_pure f p doc)
  else if ext = (".pdf") then
    if direct_pdf && out_pdf then some (translate_pdf_to_pdf_direct_pure f p doc)
    else some (translate_pdf_pure f p doc)
  else none

/-! ### Supporting lemmas -/

/-- Splicing a middle slice with the tail reassembles the drop. -/
lemma sliceJoin (l : Str) (pos e : Nat) (hpe : pos ≤ e) (hel : e ≤ l.length) :
    (l.take e).drop pos ++ l.drop e = l.drop pos := by
  have hlen : (l.take e).length = e := by simp [List.length_take, hel]
  have h2 : (l.take e ++ l.drop e).drop pos
      = (l.take e).drop pos ++ (l.drop e).drop (pos - (l.take e).length) :=
    List.drop_append_eq_append_drop
  rw [List.take_append_drop, hlen, Nat.sub_eq_zero_of_le hpe, List.drop_zero] at h2
  exact h2.symm

/-- On a unit whose runs carry no prior translations, the redistribution
loop assigns slices whose concatenation is exactly the translated text
from the cursor position on. -/
lemma redistAux_join (olen : Nat) (tr : Str) :
    ∀ (l : List RunFrag) (pos : Nat), l ≠ [] → (∀ r ∈ l, r.translated = none) →
      pos ≤ tr.length →
      joinTranslated (redistAux olen tr.length tr l pos) = tr.drop pos := by
  intro l
  induction l with
  | nil => intro pos h; exact absurd rfl h
  | cons run rest ih =>
    intro pos _ hfresh hpos
    have hposEnd : pos ≤ min (pos + runCutLen olen tr.length run.text.length) tr.length :=
      le_min (Nat.le_add_right _ _) hpos
    have hEndLen : min (pos + runCutLen olen tr.length run.text.length) tr.length ≤ tr.length :=
      min_le_right _ _
    cases hrest : rest with
    | nil =>
      subst hrest
      simp only [redistAux, List.getLast?_nil]
      split_ifs with hcond
      · simp only [joinTranslated, List.map_cons, List.map_nil, List.flatten_cons,
          List.flatten_nil, List.append_nil, Option.getD_some]
        exact sliceJoin tr pos _ hposEnd hEndLen
      · have hlt : ¬ min (pos + runCutLen olen tr.length run.text.length) tr.length < tr.length := by
          intro h
          exact hcond ⟨by trivial, h⟩
        have hEq : min (pos + runCutLen olen tr.length run.text.length) tr.length = tr.length :=
          le_antisymm hEndLen (le_of_not_lt hlt)
        simp only [joinTranslated, List.map_cons, List.map_nil, List.flatten_cons,
          List.flatten_nil, List.append_nil, Option.getD_some]
        rw [hEq, List.take_length]
    | cons r2 rest2 =>
      rw [← hrest]
      have hrestne : rest ≠ [] := by rw [hrest]; simp
      obtain ⟨lr, hlr⟩ : ∃ a, rest.getLast? = some a := by
        cases rest with
        | nil => exact absurd rfl hrestne
        | cons x xs => exact ⟨(x :: xs).getLast (by simp), List.getLast?_eq_getLast _ _⟩
      have hlrmem : lr ∈ rest := List.mem_of_mem_getLast? hlr
      have hlrnone : lr.translated = none := hfresh lr (List.mem_cons_of_mem _ hlrmem)
      simp only [redistAux, hlr]
      have hne : ({ run with translated := some ((tr.take (min (pos + runCutLen olen tr.length run.text.length) tr.length)).drop pos) } : RunFrag) ≠ lr := by
        intro hcontra
        rw [← hcontra] at hlrnone
        simp at hlrnone
      rw [if_neg (fun hc => hne hc.1)]
      simp only [joinTranslated, List.map_cons, List.flatten_cons, Option.getD_some]
      have ihr := ih (min (pos + runCutLen olen tr.length run.text.length) tr.length) hrestne
        (fun r hr => hfresh r (List.mem_cons_of_mem _ hr)) hEndLen
      simp only [joinTranslated] at ihr
      rw [ihr]
      exact sliceJoin tr pos _ hposEnd hEndLen

/-- The cell loop walks unharmed over a prefix of blank or successfully
translating cells. -/
lemma translateCellsSeq_append_ok (f : Translator) :
    ∀ (pre rest : List CellData),
      (∀ c ∈ pre, (trimStr c.text).isEmpty = true ∨ ∃ t, f c.text = Except.ok t) →
      translateCellsSeq f (pre ++ rest)
        = pre.map (translateCellStep f) ++ translateCellsSeq f rest := by
  intro pre
  induction pre with
  | nil => intro rest _; simp
  | cons c pre ih =>
    intro rest hok
    have htail : ∀ c2 ∈ pre, (trimStr c2.text).isEmpty = true ∨ ∃ t, f c2.text = Except.ok t :=
      fun c2 h2 => hok c2 (List.mem_cons_of_mem _ h2)
    by_cases hb : (trimStr c.text).isEmpty
    · simp [translateCellsSeq, translateCellStep, hb, ih rest htail]
    · rcases hok c (List.mem_cons_self _ _) with hblank | ⟨t, ht⟩
      · exact absurd hblank (by simpa using hb)
      · simp [translateCellsSeq, translateCellStep, hb, ht, ih rest htail]

/-- One secondary-pass step is idempotent: it reads only the block text,
which it never changes, and only writes constant flag values. -/
lemma secondaryStep_idem (b : TextBlock) : secondaryStep (secondaryStep b) = secondaryStep b := by
  unfold secondaryStep
  cases h1 : secondaryCalloutMarker b.text <;> cases h2 : secondaryTitleMarker b.text <;>
    simp [h1, h2]

/-- Finite check behind the zero-paragraph case of the truncation: for a
small document the binary64 truncated count is zero. -/
lemma pyMulRatioTrunc_small_zero :
    ∀ n < 100, ∀ q < 100, n * q < 100 → pyMulRatioTrunc n q 100 = 0 := by decide

/-! ### Claims -/

/-- C1 (counterexample): a unit with exactly one sub-run is not
redistributed at all — after `translate_document_content` the sub-run
carries no translated text, so the concatenation of redistributed sub-run
texts is empty and differs from the unit's full translated text,
refuting the claim at N = 1. -/
theorem c1_single_run_counterexample :
    (translate_document_content (fun _ => Except.ok ("XYZ".toList))
        { paragraphs := [{ text := ("ab".toList), runs := [{ text := ("ab".toList) }] }] })
      = { paragraphs := [{ text := ("ab".toList), runs := [{ text := ("ab".toList) }],
                           translated := some ("XYZ".toList) }] }
    ∧ joinTranslated [({ text := ("ab".toList) } : RunFrag)] ≠ ("XYZ".toList) := by
  constructor
  · rfl
  · decide

/-- C1 (amended): for every text unit with at least two sub-runs, none
previously translated, that the translator maps to a whole translated
string, `translate_document_content` assigns each sub-run a contiguous
slice of the translated text whose concatenation, in run order, is
exactly the unit's full translated text (the final sub-run receiving the
remaining characters), and records the full translated text on the
unit. -/
theorem c1_run_redistribution_total (f : Translator) (p : ParaUnit) (t : Str)
    (hok : f p.text = Except.ok t)
    (hfresh : ∀ r ∈ p.runs, r.translated = none)
    (hn : 2 ≤ p.runs.length) :
    (translate_document_content f { paragraphs := [p] }).paragraphs.map
        (fun q => joinTranslated q.runs) = [t]
    ∧ (translate_document_content f { paragraphs := [p] }).paragraphs.map
        ParaUnit.translated = [some t] := by
  have hrunsne : p.runs ≠ [] := by
    intro h
    rw [h] at hn
    simp at hn
  constructor
  · simp only [translate_document_content, List.map_cons, List.map_nil, translatePara, hok]
    rw [if_pos (by omega)]
    simp only [List.map_cons, List.map_nil]
    have := redistAux_join p.text.length t p.runs 0 hrunsne hfresh (Nat.zero_le _)
    rw [this]
    simp
  · simp only [translate_document_content, List.map_cons, List.map_nil, translatePara, hok]
    rw [if_pos (by omega)]

/-- C1 (witness): the amended theorem at a concrete two-run unit. -/
theorem c1_run_redistribution_total_witness :
    (translate_document_content (fun _ => Except.ok ("WXYZ!".toList))
        { paragraphs := [{ text := ("abcd".toList),
                           runs := [{ text := ("ab".toList) }, { text := ("cd".toList) }] }] }).paragraphs.map
        (fun q => joinTranslated q.runs) = [("WXYZ!".toList)]
    ∧ (translate_document_content (fun _ => Except.ok ("WXYZ!".toList))
        { paragraphs := [{ text := ("abcd".toList),
                           runs := [{ text := ("ab".toList) }, { text := ("cd".toList) }] }] }).paragraphs.map
        ParaUnit.translated = [some ("WXYZ!".toList)] :=
  c1_run_redistribution_total (fun _ => Except.ok ("WXYZ!".toList))
    { text := ("abcd".toList), runs := [{ text := ("ab".toList) }, { text := ("cd".toList) }] }
    ("WXYZ!".toList) rfl (by decide) (by decide)

/-- C2 (counterexample): a translator failure on the first cell of a
two-cell table leaves that cell without any translated text (not the
original, as the claim requires) and aborts the sibling cell, which the
second conjunct shows would have been translated had no failure
occurred. -/
theorem c2_cell_failure_counterexample :
    (translate_document_content
        (fun w => if w = ("a".toList) then Except.error ("E") else Except.ok (w ++ ("!".toList)))
        { tables := [{ cells := [{ text := ("a".toList) }, { text := ("b".toList) }] }] })
      = { tables := [{ cells := [({ text := ("a".toList) } : CellData), { text := ("b".toList) }] }] }
    ∧ (translate_document_content (fun w => Except.ok (w ++ ("!".toList)))
        { tables := [{ cells := [{ text := ("a".toList) }, { text := ("b".toList) }] }] })
      = { tables := [{ cells := [({ text := ("a".toList), translated := some ("a!".toList) } : CellData),
                                 { text := ("b".toList), translated := some ("b!".toList) }] }] } := by
  constructor
  · decide
  · decide

/-- C2 (amended): a translator failure on a paragraph unit makes that
unit fall back to its original text while every other paragraph is
exactly what it would have been without the failure; a translator failure
on a table cell instead aborts that table's cell loop — earlier blank or
successful cells keep their results, while the failing cell and all later
cells of the same table are left untranslated (no fallback) — and tables
are processed independently of each other and of the paragraphs. -/
theorem c2_translator_failure_fallback :
    (∀ (f : Translator) (doc : DocData) (pre : List ParaUnit) (p : ParaUnit)
        (post : List ParaUnit) (e : String),
      doc.paragraphs = pre ++ p :: post → f p.text = Except.error e →
      (translate_document_content f doc).paragraphs
        = pre.map (translatePara f) ++ { p with translated := some p.text }
            :: post.map (translatePara f))
    ∧ (∀ (f : Translator) (pre : List CellData) (c : CellData) (post : List CellData)
        (e : String),
      (∀ c2 ∈ pre, (trimStr c2.text).isEmpty = true ∨ ∃ t, f c2.text = Except.ok t) →
      (trimStr c.text).isEmpty = false → f c.text = Except.error e →
      translateCellsSeq f (pre ++ c :: post) = pre.map (translateCellStep f) ++ c :: post)
    ∧ (∀ (f : Translator) (doc : DocData),
      (translate_document_content f doc).tables
        = doc.tables.map (fun tb => { tb with cells := translateCellsSeq f tb.cells })) := by
  refine ⟨?_, ?_, ?_⟩
  · intro f doc pre p post e hdoc herr
    have hp : translatePara f p = { p with translated := some p.text } := by
      simp [translatePara, herr]
    simp [translate_document_content, hdoc, hp]
  · intro f pre c post e hpre hblank herr
    rw [translateCellsSeq_append_ok f pre (c :: post) hpre]
    simp [translateCellsSeq, hblank, herr]
  · intro f doc
    rfl

/-- C2 (witness): the amended theorem at a concrete failing paragraph and
a concrete two-cell table whose first cell fails. -/
theorem c2_translator_failure_fallback_witness :
    (translate_document_content
        (fun w => if w = ("a".toList) then Except.error ("E") else Except.ok (w ++ ("!".toList)))
        { paragraphs := [{ text := ("a".toList) }] }).paragraphs
      = [({ text := ("a".toList), translated := some ("a".toList) } : ParaUnit)]
    ∧ translateCellsSeq
        (fun w => if w = ("a".toList) then Except.error ("E") else Except.ok (w ++ ("!".toList)))
        [{ text := ("a".toList) }, { text := ("b".toList) }]
      = [({ text := ("a".toList) } : CellData), { text := ("b".toList) }] := by
  constructor
  · have h := c2_translator_failure_fallback.1
      (fun w => if w = ("a".toList) then Except.error ("E") else Except.ok (w ++ ("!".toList)))
      { paragraphs := [{ text := ("a".toList) }] }
      [] { text := ("a".toList) } [] ("E") rfl rfl
    simpa using h
  · have h := c2_translator_failure_fallback.2.1
      (fun w => if w = ("a".toList) then Except.error ("E") else Except.ok (w ++ ("!".toList)))
      [] { text := ("a".toList) } [{ text := ("b".toList) }] ("E")
      (by intro c2 h2; simp at h2) (by decide) rfl
    simpa using h

/-- C3: with both texts non-empty, the ratio thresholds of
`layout_compensation` are exactly as specified — above 1.2 the
recommendation is scale 0.95 with a negative tracking adjustment, in
(1.1, 1.2] it is scale 0.98, and at or below 1.1 there is no
compensation. -/
theorem c3_layout_compensation_thresholds (o t : Str) (ho : o ≠ []) (ht : t ≠ []) :
    ((t.length : ℚ) / (o.length : ℚ) > 12 / 10 →
        layout_compensation o t = ⟨95 / 100, -(5 / 10)⟩
        ∧ (layout_compensation o t).tracking < 0)
    ∧ (11 / 10 < (t.length : ℚ) / (o.length : ℚ) ∧ (t.length : ℚ) / (o.length : ℚ) ≤ 12 / 10 →
        layout_compensation o t = ⟨98 / 100, -(3 / 10)⟩)
    ∧ ((t.length : ℚ) / (o.length : ℚ) ≤ 11 / 10 →
        layout_compensation o t = ⟨1, 0⟩) := by
  have h1 : o.isEmpty = false := by
    cases o with
    | nil => exact absurd rfl ho
    | cons x xs => rfl
  have h2 : t.isEmpty = false := by
    cases t with
    | nil => exact absurd rfl ht
    | cons x xs => rfl
  refine ⟨fun h => ?_, fun h => ?_, fun h => ?_⟩
  · have heq : layout_compensation o t = ⟨95 / 100, -(5 / 10)⟩ := by
      simp only [layout_compensation, h1, h2, Bool.or_self]
      rw [if_neg (by decide), if_pos h]
    exact ⟨heq, by rw [heq]; norm_num⟩
  · simp only [layout_compensation, h1, h2, Bool.or_self]
    rw [if_neg (by decide), if_neg (by linarith [h.2]), if_pos h.1]
  · simp only [layout_compensation, h1, h2, Bool.or_self]
    rw [if_neg (by decide), if_neg (by linarith), if_neg (by linarith)]

/-- C3 (witness): ratio 1.25 yields scale 0.95, ratio 1.15 yields scale
0.98, ratio 1.05 yields scale 1.0 and tracking 0. -/
theorem c3_layout_compensation_thresholds_witness :
    layout_compensation (List.replicate 4 'a') (List.replicate 5 'b') = ⟨95 / 100, -(5 / 10)⟩
    ∧ layout_compensation (List.replicate 20 'a') (List.replicate 23 'b') = ⟨98 / 100, -(3 / 10)⟩
    ∧ layout_compensation (List.replicate 20 'a') (List.replicate 21 'b') = ⟨1, 0⟩ :=
  ⟨((c3_layout_compensation_thresholds (List.replicate 4 'a') (List.replicate 5 'b')
      (by decide) (by decide)).1 (by norm_num [List.length_replicate])).1,
   (c3_layout_compensation_thresholds (List.replicate 20 'a') (List.replicate 23 'b')
      (by decide) (by decide)).2.1 (by norm_num [List.length_replicate]),
   (c3_layout_compensation_thresholds (List.replicate 20 'a') (List.replicate 21 'b')
      (by decide) (by decide)).2.2 (by norm_num [List.length_replicate])⟩

/-- C9: with an empty original or an empty translated text,
`layout_compensation` returns exactly scale 1.0 and tracking 0, so the
length-ratio division is never reached on empty input. -/
theorem c9_empty_input_guard (o t : Str) (h : o = [] ∨ t = []) :
    layout_compensation o t = ⟨1, 0⟩ := by
  rcases h with h | h <;> subst h <;> simp [layout_compensation]

/-- C9 (witness): the guard at an empty original text. -/
theorem c9_empty_input_guard_witness :
    layout_compensation [] (['a']) = ⟨1, 0⟩ :=
  c9_empty_input_guard [] (['a']) (Or.inl rfl)

/-- C4: the job-level entry clamps the percentage before dispatch, so a
call with percent 0 is indistinguishable from percent 1 and a call with
percent 150 from percent 100, on every extension, flag setting,
translator and document. -/
theorem c4_percent_clamp (ext : String) (direct_pdf out_pdf : Bool)
    (f : Translator) (doc : DocData) :
    translate_document_pure ext direct_pdf out_pdf f 0 doc
      = translate_document_pure ext direct_pdf out_pdf f 1 doc
    ∧ translate_document_pure ext direct_pdf out_pdf f 150 doc
      = translate_document_pure ext direct_pdf out_pdf f 100 doc := by
  have h01 : clampPercent 0 = clampPercent 1 := by decide
  have h2 : clampPercent 150 = clampPercent 100 := by decide
  constructor <;> simp only [translate_document_pure, h01, h2]

/-- C5 (counterexample): a clustered line reading WARNING is classified
as a text-box with a border, but the extraction pipeline never gives it a
border colour — `border_color` stays `none`, not red, refuting the
claim's second half. -/
theorem c5_warning_no_red_counterexample :
    (extract_pdf_metadata (Except.ok
        [{ width := 612, height := 792,
           lines := [{ text := ("WARNING".toList), x0 := 50, x1 := 100 }] }])).text_blocks
      = [{ text := ("WARNING".toList), page := 1, x0 := 50, y0 := 0, x1 := 100, y1 := 0,
           format_markers := { is_title := false, is_text_box := true, is_centered := false,
                               has_border := true, border_color := none } }]
    ∧ (none : Option String) ≠ some ("red") := by
  constructor
  · have hcent : (decide (|((50 : ℚ) + 100) / 2 - 612 / 2| < 100)) = false := by norm_num
    have hmark : primaryCalloutMarker (['W', 'A', 'R', 'N', 'I', 'N', 'G']) = true := by decide
    have htrim : ¬ (trimStr (['W', 'A', 'R', 'N', 'I', 'N', 'G']) = []) := by decide
    have hsec : secondaryCalloutMarker (['W', 'A', 'R', 'N', 'I', 'N', 'G']) = false := by decide
    have htit : secondaryTitleMarker (['W', 'A', 'R', 'N', 'I', 'N', 'G']) = false := by decide
    simp [extract_pdf_metadata, extractPageBlocks, List.enum, clusterClassify,
      secondaryClassificationPass, secondaryStep, hcent, hmark, htrim, hsec, htit]
  · simp

/-- C5 (amended): in the character-clustering path a block is classified
as a text-box exactly when its text contains a case-sensitive domain
marker (Biograph, Mission) or a case-insensitive safety marker (WARNING,
NOTICE), and `has_border` is set exactly with `is_text_box`, but no
border colour is assigned there; the red border colour is attached
precisely by the secondary pass, whose own (different) callout markers
are Mission Phase and Biograph case-sensitively and PROCEDURE and
PROTOCOL case-insensitively. -/
theorem c5_callout_classification :
    (∀ (t : Str) (x0 x1 w : ℚ) (i : Nat),
        (clusterClassify t x0 x1 w i).is_text_box = primaryCalloutMarker t
        ∧ (clusterClassify t x0 x1 w i).has_border = (clusterClassify t x0 x1 w i).is_text_box
        ∧ (clusterClassify t x0 x1 w i).border_color = none)
    ∧ (∀ b : TextBlock,
        (secondaryStep b).format_markers.border_color = some ("red")
          ↔ (secondaryCalloutMarker b.text = true
              ∨ b.format_markers.border_color = some ("red"))) := by
  constructor
  · intro t x0 x1 w i
    exact ⟨rfl, rfl, rfl⟩
  · intro b
    unfold secondaryStep
    cases h1 : secondaryCalloutMarker b.text <;> cases h2 : secondaryTitleMarker b.text <;>
      simp [h1, h2]

/-- C6 (evaluation at the failing input): a first page recorded at
792 × 612 pt — width exceeding height — makes `generate_pdf_direct` emit
the page size (612, 792): the swap yields a portrait page (output width
smaller than height), not the landscape orientation the specification
requires, while recorded margins are passed through. -/
theorem c6_landscape_swap_eval :
    generate_pdf_geometry
        { pages := [{ page_number := 1, size := some (792, 612) }],
          global_margins := some ⟨10, 20, 30, 40⟩ }
      = some ((612, 792), ⟨10, 20, 30, 40⟩)
    ∧ ((792 : ℚ) > 612 ∧ (612 : ℚ) < 792) := by
  constructor
  · simp only [generate_pdf_geometry]
    norm_num
  · norm_num

/-- C7: the secondary classification pass is idempotent — running it
twice over any block list produces exactly the flags of one run. -/
theorem c7_secondary_pass_idempotent (bs : List TextBlock) :
    secondaryClassificationPass (secondaryClassificationPass bs)
      = secondaryClassificationPass bs := by
  induction bs with
  | nil => rfl
  | cons b rest ih =>
    simp only [secondaryClassificationPass, List.map_cons] at *
    rw [secondaryStep_idem, ih]

/-- C8: a fully failed extraction is swallowed and an empty-but-valid
model returned: empty page list, empty text-block list and zeroed global
margins. -/
theorem c8_failed_extraction_empty_model (e : String) :
    (extract_pdf_metadata (Except.error e)).pages = []
    ∧ (extract_pdf_metadata (Except.error e)).text_blocks = []
    ∧ (extract_pdf_metadata (Except.error e)).global_margins = some ⟨0, 0, 0, 0⟩ :=
  ⟨rfl, rfl, rfl⟩

/-- C10 (counterexample): a 100-paragraph document translated at the
(already clamped) percentage 29 retains 28 paragraphs, while
floor(N * p / 100) = 29 — the double-precision product 100 * (29 / 100)
truncates one below the exact floor, refuting the exact-floor claim. -/
theorem c10_floor_counterexample :
    (translate_docx_pure (fun w => Except.ok w) 29
        { paragraphs := List.replicate 100 { text := [('x')] } }).paragraphs.length = 28
    ∧ 100 * 29 / 100 = 29 := by
  constructor
  · decide
  · decide

/-- C10 (amended): for a clamped percentage below 100 every workflow
keeps, from the front of the paragraph list and before any translation
call, exactly `int(total * (percent / 100))` paragraphs as computed in
double precision — a count that can fall one short of
floor(total * percent / 100) — and whenever total * percent < 100 that
count is zero, so no paragraph of the document is translated. -/
theorem c10_partial_percentage_truncation (f : Translator) (percent : ℤ) (doc : DocData)
    (hlo : 1 ≤ percent) (hhi : percent < 100) :
    (translate_docx_pure f percent doc).paragraphs
        = (doc.paragraphs.take (pyTruncCount doc.paragraphs.length percent)).map (translatePara f)
    ∧ (translate_pdf_pure f percent doc).paragraphs
        = (doc.paragraphs.take (pyTruncCount doc.paragraphs.length percent)).map (translatePara f)
    ∧ (doc.paragraphs.length * percent.toNat < 100 →
        (translate_docx_pure f percent doc).paragraphs = []) := by
  have happ : applyPercentLimit percent doc
      = { doc with paragraphs := doc.paragraphs.take (pyTruncCount doc.paragraphs.length percent) } := by
    simp [applyPercentLimit, hhi]
  refine ⟨?_, ?_, ?_⟩
  · simp [translate_docx_pure, happ, translate_document_content]
  · simp [translate_pdf_pure, happ, translate_document_content]
  · intro hsmall
    have hq : percent.toNat < 100 := by omega
    have hp1 : 1 ≤ percent.toNat := by omega
    have hmul : doc.paragraphs.length * 1 ≤ doc.paragraphs.length * percent.toNat :=
      Nat.mul_le_mul_left _ hp1
    have hn : doc.paragraphs.length < 100 := by omega
    have hz : pyTruncCount doc.paragraphs.length percent = 0 :=
      pyMulRatioTrunc_small_zero doc.paragraphs.length hn percent.toNat hq hsmall
    simp [translate_docx_pure, happ, hz, translate_document_content]

/-- C10 (witness): a 3-paragraph document at the minimum-effect
percentage 20 (3 * 20 < 100) keeps and translates nothing. -/
theorem c10_partial_percentage_truncation_witness :
    (translate_docx_pure (fun w => Except.ok w) 20
        { paragraphs := [{ text := [('x')] }, { text := [('y')] }, { text := [('z')] }] }).paragraphs
      = [] :=
  (c10_partial_percentage_truncation (fun w => Except.ok w) 20
      { paragraphs := [{ text := [('x')] }, { text := [('y')] }, { text := [('z')] }] }
      (by decide) (by decide)).2.2 (by decide)
